import Mathlib

/-!
Shallow embedding of the MCP dispatch server (`src/mcp_server/main.py`).

The server decodes a JSON request body into an `MCPRequest` (pydantic
validation), looks the `model_id` up in a fixed registry, invokes the
registered handler and wraps the outcome in a success envelope or an
HTTP error envelope (404 on lookup miss, 500 on handler failure).

Decoded JSON values are modelled by the inductive type `Json`; JSON
numbers are modelled as integers (all numbers exercised by the program
and its tests are integers).  A Python exception raised by a handler is
modelled by the `Except.error` branch of the handler's return type,
carrying the stringified exception message.
-/

namespace MCPServer

/-- A decoded JSON value as produced by the transport layer.  Numbers are
modelled as integers. -/
inductive Json where
  | null : Json
  | bool : Bool → Json
  | int : Int → Json
  | str : String → Json
  | arr : List Json → Json
  | obj : List (String × Json) → Json
deriving Repr

/-- A JSON object body, as a key-value association list (Python `dict`
preserves insertion order; lookups take the binding for the key). -/
abbrev Ctx := List (String × Json)

mutual

/-- Rendering of a decoded JSON value in the shape of Python `repr`.
The scalar cases `None`, `True`/`False` and decimal integers are
rendered exactly; strings, and the lists and dicts containing them, use
a fixed single-quote form with no escaping, so this rendering is exact
only where no quote, backslash or control character occurs.  (CPython's
`repr` additionally selects the quote delimiter adaptively and escapes
by Unicode class; no theorem below depends on the composite cases.) -/
def pyRepr : Json → String
  | .null => "None"
  | .bool true => "True"
  | .bool false => "False"
  | .int n => toString n
  | .str s => "\x27" ++ s ++ "\x27"
  | .arr es => "[" ++ String.intercalate ", " (pyReprList es) ++ "]"
  | .obj fs => "\x7b" ++ String.intercalate ", " (pyReprFields fs) ++ "\x7d"

/-- `pyRepr` mapped over the elements of a JSON array. -/
def pyReprList : List Json → List String
  | [] => []
  | e :: es => pyRepr e :: pyReprList es

/-- `pyRepr` mapped over the fields of a JSON object. -/
def pyReprFields : List (String × Json) → List String
  | [] => []
  | (k, v) :: fs => ("\x27" ++ k ++ "\x27: " ++ pyRepr v) :: pyReprFields fs

end

/-- Python `str` of a decoded JSON value, as applied by f-string
interpolation: identical to `pyRepr` except that a string renders
without quotes (a top-level string therefore renders exactly as
itself). -/
def pyStr : Json → String
  | .str s => s
  | v => pyRepr v

/-- A model handler: a function of the request context and the optional
parameters.  A raised Python exception is modelled as `Except.error`
carrying the stringified exception message. -/
abbrev Handler := Ctx → Option Ctx → Except String Json

/-- `echo_model_handler` from `main.py`: returns `\x7b"echo": context\x7d`. -/
def echo_model_handler : Handler :=
  fun context _parameters => .ok (.obj [("echo", .obj context)])

/-- `greeting_model_handler` from `main.py`: reads `name` from the context
with default `"World"` and returns `\x7b"greeting": f"Hello, \x7bname\x7d!"\x7d`. -/
def greeting_model_handler : Handler :=
  fun context _parameters =>
    let name : Json := (List.lookup "name" context).getD (.str "World")
    .ok (.obj [("greeting", .str ("Hello, " ++ pyStr name ++ "!"))])

/-- `MODEL_REGISTRY` from `main.py`: the fixed map from model identifier
to handler. -/
def MODEL_REGISTRY : List (String × Handler) :=
  [("echo-model", echo_model_handler),
   ("greeting-model", greeting_model_handler)]

/-- The `MCPRequest` pydantic model from `main.py`: a required string
`model_id`, a required object `context`, and an optional object
`parameters` whose default is `None`. -/
structure MCPRequest where
  model_id : String
  context : Ctx
  parameters : Option Ctx
deriving Repr

/-- The outcome of the `/invoke` endpoint: either the success envelope
`\x7bmodel_id, result\x7d` returned normally, or an `HTTPException`
raised with a status code and a `detail` payload. -/
inductive InvokeResult where
  | success : String → Json → InvokeResult
  | httpError : Nat → Json → InvokeResult
deriving Repr

/-- The body of `invoke_model` from `main.py`, parametrized by the
registry it consults: look the model id up; on a miss raise a 404
`HTTPException` whose detail carries the model id and the message
`Model <id> not found.` (with the id in single quotes); on a hit invoke
the handler, wrapping a normal return in the success envelope and a
raised exception in a 500 `HTTPException` carrying the stringified
message. -/
def invokeWith (registry : List (String × Handler)) (request : MCPRequest) :
    InvokeResult :=
  match List.lookup request.model_id registry with
  | none =>
      .httpError 404 (.obj
        [("model_id", .str request.model_id),
         ("error", .obj
           [("code", .int 404),
            ("message", .str
              ("Model \x27" ++ request.model_id ++ "\x27 not found."))])])
  | some handler =>
      match handler request.context request.parameters with
      | .ok result => .success request.model_id result
      | .error e =>
          .httpError 500 (.obj
            [("model_id", .str request.model_id),
             ("error", .obj
               [("code", .int 500),
                ("message", .str e)])])

/-- `invoke_model` from `main.py`: dispatch against `MODEL_REGISTRY`. -/
def invoke_model (request : MCPRequest) : InvokeResult :=
  invokeWith MODEL_REGISTRY request

/-- Validation of a decoded JSON request body against the `MCPRequest`
pydantic model declared in `main.py`: `model_id` must be present and a
string (any string — the declared type `str` carries no minimum-length
constraint), `context` must be present and an object, and `parameters`
is optional, admitting an object or `null`, defaulting to `None`.
Returns `none` exactly when transport-level validation fails (HTTP 422
before the dispatcher runs). -/
def validateMCPRequest : Json → Option MCPRequest
  | .obj fields =>
      match List.lookup "model_id" fields, List.lookup "context" fields with
      | some (.str m), some (.obj c) =>
          match List.lookup "parameters" fields with
          | none => some ⟨m, c, none⟩
          | some .null => some ⟨m, c, none⟩
          | some (.obj p) => some ⟨m, c, some p⟩
          | some _ => none
      | _, _ => none
  | _ => none

/-- State-threaded rendering of `echo_model_handler`: the body performs
no assignment to `context` or `parameters`, so the embedding returns
them unchanged alongside the result. -/
def echo_model_handler_step (context : Ctx) (parameters : Option Ctx) :
    Except String Json × Ctx × Option Ctx :=
  (.ok (.obj [("echo", .obj context)]), context, parameters)

/-- State-threaded rendering of `greeting_model_handler`: the single
statement `context.get("name", "World")` is a read, so the embedding
returns `context` and `parameters` unchanged alongside the result. -/
def greeting_model_handler_step (context : Ctx) (parameters : Option Ctx) :
    Except String Json × Ctx × Option Ctx :=
  let name : Json := (List.lookup "name" context).getD (.str "World")
  (.ok (.obj [("greeting", .str ("Hello, " ++ pyStr name ++ "!"))]),
   context, parameters)

/-- A hypothetical always-raising handler, used to exercise the 500
branch of the dispatcher. -/
def failingHandler : Handler :=
  fun _context _parameters => .error "boom"

/-- The string `needle` occurs contiguously inside `haystack`. -/
def strHasSubstr (needle haystack : String) : Prop :=
  ∃ pre suf, pre ++ needle ++ suf = haystack

end MCPServer

namespace MCPServer

/-- Claim C1: for every model id registered in `MODEL_REGISTRY`, every
context and every optional parameters value, when the registered handler
returns normally, `invoke_model` returns the success envelope whose
`model_id` field is the requested id and whose `result` field is the
handler's return value. -/
theorem invoke_registered_success (m : String) (h : Handler) (c : Ctx)
    (p : Option Ctx) (r : Json)
    (hm : List.lookup m MODEL_REGISTRY = some h)
    (hr : h c p = .ok r) :
    invoke_model ⟨m, c, p⟩ = .success m r := by
  simp [invoke_model, invokeWith, hm, hr]

/-- Witness for C1 at the registered id `echo-model` with an empty
context and no parameters. -/
theorem invoke_registered_success_witness :
    List.lookup "echo-model" MODEL_REGISTRY = some echo_model_handler ∧
    echo_model_handler [] none = .ok (.obj [("echo", .obj [])]) ∧
    invoke_model ⟨"echo-model", [], none⟩ =
      .success "echo-model" (.obj [("echo", .obj [])]) :=
  ⟨rfl, rfl, invoke_registered_success "echo-model" echo_model_handler [] none
    (.obj [("echo", .obj [])]) rfl rfl⟩

/-- Claim C2: for every model id absent from `MODEL_REGISTRY`,
`invoke_model` raises a 404 `HTTPException` whose detail carries the
offending model id and the error object with code 404 and message
`Model <id> not found.` (id in single quotes); that message contains the
literal model id and the words `not found` as substrings. -/
theorem invoke_not_found (m : String) (c : Ctx) (p : Option Ctx)
    (hm : List.lookup m MODEL_REGISTRY = none) :
    invoke_model ⟨m, c, p⟩ =
      .httpError 404 (.obj
        [("model_id", .str m),
         ("error", .obj
           [("code", .int 404),
            ("message", .str ("Model \x27" ++ m ++ "\x27 not found."))])]) ∧
    strHasSubstr m ("Model \x27" ++ m ++ "\x27 not found.") ∧
    strHasSubstr "not found" ("Model \x27" ++ m ++ "\x27 not found.") := by
  refine ⟨by simp [invoke_model, invokeWith, hm],
    ⟨"Model \x27", "\x27 not found.", rfl⟩,
    ⟨"Model \x27" ++ m ++ "\x27 ", ".", ?_⟩⟩
  have hlit : ("\x27 " ++ ("not found" ++ ".") : String) = "\x27 not found." := by
    decide
  calc ("Model \x27" ++ m ++ "\x27 ") ++ "not found" ++ "."
      = "Model \x27" ++ m ++ ("\x27 " ++ ("not found" ++ ".")) := by
        simp only [String.append_assoc]
    _ = "Model \x27" ++ m ++ "\x27 not found." := by rw [hlit]

/-- Witness for C2 at the unregistered id `non-existent-model`. -/
theorem invoke_not_found_witness :
    List.lookup "non-existent-model" MODEL_REGISTRY = none ∧
    invoke_model ⟨"non-existent-model", [], none⟩ =
      .httpError 404 (.obj
        [("model_id", .str "non-existent-model"),
         ("error", .obj
           [("code", .int 404),
            ("message", .str
              "Model \x27non-existent-model\x27 not found.")])]) :=
  ⟨rfl, ((invoke_not_found "non-existent-model" [] none rfl).1.trans (by rfl))⟩

/-- Claim C3: for every registry, every registered model id whose handler
raises on the given context and parameters, the dispatcher catches the
exception and returns a 500 `HTTPException` carrying the model id and
the stringified message; the exception never propagates (the dispatcher
is a total function into envelopes). -/
theorem invoke_handler_failure (registry : List (String × Handler))
    (m : String) (h : Handler) (c : Ctx) (p : Option Ctx) (msg : String)
    (hm : List.lookup m registry = some h)
    (hr : h c p = .error msg) :
    invokeWith registry ⟨m, c, p⟩ =
      .httpError 500 (.obj
        [("model_id", .str m),
         ("error", .obj
           [("code", .int 500),
            ("message", .str msg)])]) := by
  simp [invokeWith, hm, hr]

/-- Witness for C3: a registry holding an always-raising handler. -/
theorem invoke_handler_failure_witness :
    List.lookup "fail-model" [("fail-model", failingHandler)] =
      some failingHandler ∧
    failingHandler [] none = .error "boom" ∧
    invokeWith [("fail-model", failingHandler)] ⟨"fail-model", [], none⟩ =
      .httpError 500 (.obj
        [("model_id", .str "fail-model"),
         ("error", .obj
           [("code", .int 500),
            ("message", .str "boom")])]) :=
  ⟨rfl, rfl, invoke_handler_failure [("fail-model", failingHandler)]
    "fail-model" failingHandler [] none "boom" rfl rfl⟩

/-- Claim C4, counterexample: a request body whose `model_id` is the
empty string is not rejected by validation — the declared pydantic type
`str` admits the empty string, so `validateMCPRequest` succeeds and the
request reaches the dispatcher. -/
theorem empty_model_id_passes_validation :
    validateMCPRequest
      (.obj [("model_id", .str ""), ("context", .obj [])]) =
      some ⟨"", [], none⟩ := rfl

/-- Claim C4, amended: a request whose `model_id` is the empty string
passes transport validation (the declared type enforces only that the
field is a string) and proceeds to the registry lookup, which misses and
yields the 404 not-found outcome. -/
theorem empty_model_id_yields_not_found :
    validateMCPRequest
      (.obj [("model_id", .str ""), ("context", .obj [])]) =
      some ⟨"", [], none⟩ ∧
    invoke_model ⟨"", [], none⟩ =
      .httpError 404 (.obj
        [("model_id", .str ""),
         ("error", .obj
           [("code", .int 404),
            ("message", .str "Model \x27\x27 not found.")])]) :=
  ⟨rfl, rfl⟩

end MCPServer

namespace MCPServer

/-- Claim C5: the greeting handler substitutes the `name` value from the
context when the key holds a string, and defaults to `World` when the
key is absent; in the absent case, invoking `greeting-model` through the
dispatcher yields the success envelope with `Hello, World!`. -/
theorem greeting_default_world (c : Ctx) (p : Option Ctx) :
    (∀ s, List.lookup "name" c = some (.str s) →
      greeting_model_handler c p =
        .ok (.obj [("greeting", .str ("Hello, " ++ s ++ "!"))])) ∧
    (List.lookup "name" c = none →
      greeting_model_handler c p =
        .ok (.obj [("greeting", .str "Hello, World!")]) ∧
      invoke_model ⟨"greeting-model", c, p⟩ =
        .success "greeting-model"
          (.obj [("greeting", .str "Hello, World!")])) := by
  constructor
  · intro s hs
    simp only [greeting_model_handler, hs, Option.getD_some, pyStr]
  · intro hn
    have hh : greeting_model_handler c p =
        .ok (.obj [("greeting", .str "Hello, World!")]) := by
      simp only [greeting_model_handler, hn, Option.getD_none]
      rfl
    refine ⟨hh, ?_⟩
    have hl : List.lookup "greeting-model" MODEL_REGISTRY =
        some greeting_model_handler := rfl
    simp [invoke_model, invokeWith, hl, hh]

/-- Witness for C5 at a context binding `name` to `Jules` and at the
empty context. -/
theorem greeting_default_world_witness :
    greeting_model_handler [("name", .str "Jules")] none =
      .ok (.obj [("greeting", .str "Hello, Jules!")]) ∧
    greeting_model_handler [] none =
      .ok (.obj [("greeting", .str "Hello, World!")]) ∧
    invoke_model ⟨"greeting-model", [], none⟩ =
      .success "greeting-model"
        (.obj [("greeting", .str "Hello, World!")]) :=
  ⟨(greeting_default_world [("name", .str "Jules")] none).1 "Jules" rfl,
   ((greeting_default_world [] none).2 rfl).1,
   ((greeting_default_world [] none).2 rfl).2⟩

/-- Claim C6: the echo handler returns exactly the object binding `echo`
to the unchanged context, for every context and parameters value; in
particular invoking `echo-model` on the context from the test suite
yields that context echoed back in the success envelope. -/
theorem echo_returns_context (c : Ctx) (p : Option Ctx) :
    echo_model_handler c p = .ok (.obj [("echo", .obj c)]) ∧
    invoke_model
      ⟨"echo-model", [("key", .str "value"), ("number", .int 123)], none⟩ =
      .success "echo-model"
        (.obj [("echo",
          .obj [("key", .str "value"), ("number", .int 123)])]) :=
  ⟨rfl, rfl⟩

/-- Claim C7: both registered handlers, rendered with explicit state
threading, leave the context and the parameters exactly as received and
compute the same result as their pure renderings; as pure functions of
their arguments they carry no state across invocations. -/
theorem handlers_preserve_state (c : Ctx) (p : Option Ctx) :
    echo_model_handler_step c p = (echo_model_handler c p, c, p) ∧
    greeting_model_handler_step c p = (greeting_model_handler c p, c, p) :=
  ⟨rfl, rfl⟩

/-- Claim C8: the response of `invoke_model` is a function of the model
id and the context alone — two requests differing only in their
parameters value receive identical envelopes, whichever branch of the
dispatcher they take. -/
theorem parameters_no_influence (m : String) (c : Ctx)
    (p1 p2 : Option Ctx) :
    invoke_model ⟨m, c, p1⟩ = invoke_model ⟨m, c, p2⟩ := by
  by_cases h1 : m = "echo-model"
  · subst h1; rfl
  by_cases h2 : m = "greeting-model"
  · subst h2; rfl
  have hb1 : (m == "echo-model") = false := beq_eq_false_iff_ne.mpr h1
  have hb2 : (m == "greeting-model") = false := beq_eq_false_iff_ne.mpr h2
  have hn : List.lookup m MODEL_REGISTRY = none := by
    simp only [ MODEL_REGISTRY, List.lookup, hb1, hb2]
  simp [invoke_model, invokeWith, hn]

/-- Claim C9: with the fixed registry, every request whose model id is
registered yields a success envelope — neither registered handler can
raise, so the 500 branch of the dispatcher is unreachable. -/
theorem registered_never_fails (m : String) (c : Ctx) (p : Option Ctx)
    (hm : (List.lookup m MODEL_REGISTRY).isSome = true) :
    ∃ r, invoke_model ⟨m, c, p⟩ = .success m r := by
  by_cases h1 : m = "echo-model"
  · subst h1; exact ⟨_, rfl⟩
  by_cases h2 : m = "greeting-model"
  · subst h2; exact ⟨_, rfl⟩
  exfalso
  have hb1 : (m == "echo-model") = false := beq_eq_false_iff_ne.mpr h1
  have hb2 : (m == "greeting-model") = false := beq_eq_false_iff_ne.mpr h2
  have hn : List.lookup m MODEL_REGISTRY = none := by
    simp only [ MODEL_REGISTRY, List.lookup, hb1, hb2]
  rw [hn] at hm
  exact Bool.false_ne_true hm

/-- Witness for C9 at the registered id `greeting-model`. -/
theorem registered_never_fails_witness :
    (List.lookup "greeting-model" MODEL_REGISTRY).isSome = true ∧
    ∃ r, invoke_model ⟨"greeting-model", [], none⟩ =
      .success "greeting-model" r :=
  ⟨rfl, registered_never_fails "greeting-model" [] none rfl⟩

end MCPServer
